import Mathlib

/-!
# Verification of the Tanzania food price prediction app

Shallow embedding of `src/food/food_app.py` (a Streamlit dashboard that
loads a pickled regression model, collects market features and a date from
a sidebar form, one-hot encodes them, aligns them with the training column
schema, predicts a price and plots the historical price trend).

Modelling conventions:
* Cell values are `Val`: strings (categoricals), integers (the numeric
  year/month/day/week fields; numeric payloads are abstracted as integers)
  and the boolean indicator columns produced by one-hot encoding.
* A data frame row is an association list `List (String × Val)`; a data
  frame column is a list.
* The pickled artifacts are opaque: the filesystem maps paths to abstract
  payloads (`Nat`).
* `datetime(year, month, day)` and `date.isocalendar()` are translated
  from their CPython implementations (`Lib/datetime.py`): `_is_leap`,
  `_days_in_month`, `_days_before_year`, `_days_before_month`, `_ymd2ord`,
  `_check_date_fields`, `_isoweek1monday`, `isocalendar`.  CPython works
  on unbounded signed integers; here the arithmetic is carried out on `Nat`,
  which agrees with CPython on the domain used (year ≥ 1): the only
  intermediate quantity that can go negative in CPython,
  `today - week1monday` in `isocalendar`, is negative exactly when
  `today < week1monday`, and the translation branches on that comparison
  exactly where CPython branches on `week < 0`.
-/

namespace FoodApp

/-- A cell value: a categorical string, a numeric value (numbers are
abstracted as integers), or a boolean indicator column produced by
`pd.get_dummies`. -/
inductive Val where
  | str (s : String)
  | num (n : Int)
  | ind (b : Bool)
  deriving DecidableEq, Repr

/-! ## Artifact loading (lines 67–79)

The app's filesystem is an association of paths to abstract pickle
payloads.  `open(path)` succeeds exactly when the path is present. -/

/-- Models `open(path, 'rb')` followed by `pickle.load`: returns the payload at
`path`, or `none` when the file does not exist (the raised exception). -/
def readFile (fs : List (String × Nat)) (path : String) : Option Nat :=
  ((fs.find? fun p => p.1 == path).map fun p => p.2)

/-- A single artifact load in the source is one `open` of the bare logical
filename — no other candidate path is tried. -/
def loadArtifact (fs : List (String × Nat)) (name : String) : Option Nat :=
  readFile fs name

/-- The `try:` block at lines 67–79: three sequential bare-name loads of
`finalized_model.sav`, `scaler.sav` and `model_columns.pkl`; the first
failure drops to `except` (`st.error(...)` then `st.stop()`), modelled as
`.error` carrying the failing path. -/
def loadModelFiles (fs : List (String × Nat)) : Except String (Nat × Nat × Nat) :=
  match loadArtifact fs "finalized_model.sav" with
  | none => .error "finalized_model.sav"
  | some loaded_model =>
    match loadArtifact fs "scaler.sav" with
    | none => .error "scaler.sav"
    | some sc =>
      match loadArtifact fs "model_columns.pkl" with
      | none => .error "model_columns.pkl"
      | some X_columns => .ok (loaded_model, sc, X_columns)

/-- Claim-side loader (follows the spec's words, for comparison with
`loadArtifact`): candidate paths are the bare name followed by the same
name under each known subdirectory. -/
def candidatePaths (name : String) (subdirs : List String) : List String :=
  name :: subdirs.map fun d => d ++ "/" ++ name

/-- Claim-side loader: return the payload at the first candidate path that
exists. -/
def searchLoad (fs : List (String × Nat)) (name : String)
    (subdirs : List String) : Option Nat :=
  (candidatePaths name subdirs).findSome? (readFile fs)

/-! ## CPython date arithmetic (`Lib/datetime.py`)

Used by `datetime(int(year), int(month), int(day))` (validation, line 150)
and `date_input.isocalendar()[1]` (line 151). -/

/-- CPython `_DAYS_IN_MONTH` (index 0 is a placeholder). -/
def _DAYS_IN_MONTH : List Nat := [0, 31, 28, 31, 30, 31, 30, 31, 31, 30, 31, 30, 31]

/-- CPython `_DAYS_BEFORE_MONTH` (index 0 is a placeholder). -/
def _DAYS_BEFORE_MONTH : List Nat := [0, 0, 31, 59, 90, 120, 151, 181, 212, 243, 273, 304, 334]

/-- CPython `_is_leap`. -/
def _is_leap (year : Nat) : Bool :=
  year % 4 == 0 && (year % 100 != 0 || year % 400 == 0)

/-- CPython `_days_in_month`. -/
def _days_in_month (year month : Nat) : Nat :=
  if month == 2 && _is_leap year then 29 else _DAYS_IN_MONTH.getD month 0

/-- CPython `_days_before_year`: days before January 1st of `year`. -/
def _days_before_year (year : Nat) : Nat :=
  let y := year - 1
  y * 365 + y / 4 - y / 100 + y / 400

/-- CPython `_days_before_month`: days in `year` preceding month `month`. -/
def _days_before_month (year month : Nat) : Nat :=
  _DAYS_BEFORE_MONTH.getD month 0 + (if month > 2 && _is_leap year then 1 else 0)

/-- CPython `_ymd2ord`: proleptic Gregorian ordinal (0001-01-01 is day 1). -/
def _ymd2ord (year month day : Nat) : Nat :=
  _days_before_year year + _days_before_month year month + day

/-- CPython `_check_date_fields` as a boolean: `datetime(year, month, day)`
succeeds exactly when this holds (MINYEAR = 1, MAXYEAR = 9999). -/
def check_date_fields (year month day : Nat) : Bool :=
  1 ≤ year && year ≤ 9999 &&
  1 ≤ month && month ≤ 12 &&
  1 ≤ day && day ≤ _days_in_month year month

/-- CPython `_isoweek1monday`: ordinal of the Monday starting ISO week 1 of
`year` (THURSDAY = 3; `firstday - firstweekday` never underflows since
`firstday ≥ 1` and `firstweekday = 0` when `firstday ≤ 6`). -/
def _isoweek1monday (year : Nat) : Nat :=
  let firstday := _ymd2ord year 1 1
  let firstweekday := (firstday + 6) % 7
  let week1monday := firstday - firstweekday
  if firstweekday > 3 then week1monday + 7 else week1monday

/-- CPython `date.isocalendar()`, week component.  CPython computes
`week = (today - week1monday) // 7` on signed integers and branches on
`week < 0`; here the branch is taken on the equivalent comparison
`today < week1monday`, and the remaining subtractions are nonnegative. -/
def isocalendar_week (year month day : Nat) : Nat :=
  let week1monday := _isoweek1monday year
  let today := _ymd2ord year month day
  if today < week1monday then
    (today - _isoweek1monday (year - 1)) / 7 + 1
  else
    let week := (today - week1monday) / 7
    if week ≥ 52 && today ≥ _isoweek1monday (year + 1) then 1
    else week + 1

/-- Spec-side ISO week number (follows the spec's words "standard ISO week
computation", by the Thursday rule, independent of CPython's algorithm):
the ISO week of a date is `⌈doy(T)/7⌉` where `T` is the Thursday of the
date's Monday-based week and `doy` is the day-of-year of `T` within the
year that contains `T`. -/
def isoWeekSpec (year month day : Nat) : Nat :=
  let o := _ymd2ord year month day
  let thu := o - (o + 6) % 7 + 3
  let ty :=
    if thu ≤ _days_before_year year then year - 1
    else if thu > _days_before_year (year + 1) then year + 1
    else year
  let doy := thu - _days_before_year ty
  (doy + 6) / 7

/-- Bounded agreement check between the CPython week computation and the
spec-side Thursday rule, over every field triple reachable from the date
widgets (year 2000–2050, month 1–12, day 1–31) that passes date
validation. -/
def isoWeekCheck : Bool :=
  (List.range 51).all fun dy =>
    (List.range 12).all fun m0 =>
      (List.range 31).all fun d0 =>
        let y := 2000 + dy
        let m := m0 + 1
        let d := d0 + 1
        !(check_date_fields y m d) || (isocalendar_week y m d == isoWeekSpec y m d)

/-! ## Sidebar form and prediction handler (lines 121–195) -/

/-- The eight sidebar selectbox values (each is one concrete string drawn
from the option catalogs). -/
structure Selection where
  region : String
  district : String
  market : String
  category : String
  commodity : String
  unit : String
  priceflag : String
  pricetype : String
  deriving DecidableEq, Repr

/-- The `input_dict` literal (lines 156–169): one row holding the eight
categorical strings and the four numeric fields, keyed exactly as in the
source. -/
def input_dict (sel : Selection) (year month day week : Nat) : List (String × Val) :=
  [("admin1", .str sel.region),
   ("admin2", .str sel.district),
   ("market", .str sel.market),
   ("category", .str sel.category),
   ("commodity", .str sel.commodity),
   ("unit", .str sel.unit),
   ("priceflag", .str sel.priceflag),
   ("pricetype", .str sel.pricetype),
   ("year", .num year),
   ("month", .num month),
   ("day", .num day),
   ("week", .num week)]

/-- Models `pd.get_dummies` on a one-row frame: non-string columns pass through
unchanged (keeping their relative order, placed first, as pandas does);
each string column `c` with value `s` becomes the single indicator column
`c_s` holding `True`, appended after the numeric block. -/
def get_dummies (row : List (String × Val)) : List (String × Val) :=
  (row.filterMap fun p =>
    match p.2 with
    | .str _ => none
    | v => some (p.1, v)) ++
  (row.filterMap fun p =>
    match p.2 with
    | .str s => some (p.1 ++ "_" ++ s, Val.ind true)
    | _ => none)

/-- Models `input_encoded.reindex(columns=X_columns, fill_value=0)` (line 177):
the result has exactly the schema's columns in schema order; a column
present in the row keeps its value, an absent one is filled with numeric 0,
and row columns outside the schema are dropped. -/
def reindex (X_columns : List String) (row : List (String × Val)) : List (String × Val) :=
  X_columns.map fun c => (c, (row.lookup c).getD (Val.num 0))

/-- Result of one press of the "Predict Price" button. -/
inductive RunResult where
  | errorHalt (msg : String)
  | predicted (price : Int)
  deriving DecidableEq, Repr

/-- The "Predict Price" handler (lines 147–195), with the scaler's
`transform` and the model's `predict` supplied as opaque total functions
(the source's second `try/except`, which reports a prediction error, is
unreachable under total artifacts).  Besides the outcome, the handler
returns how many times `sc.transform` and `loaded_model.predict` were
invoked.  The `try/except` around `datetime(...)` (lines 148–154) reports
"Invalid date entered!" and halts when the field triple is invalid; only
on a valid triple are the week derived, the row built, encoded, reindexed,
scaled and predicted. -/
def runPredict (sc : List Val → List Val) (loaded_model : List Val → Int)
    (X_columns : List String) (sel : Selection) (year month day : Nat) :
    RunResult × Nat × Nat :=
  if check_date_fields year month day then
    let week := isocalendar_week year month day
    let input_encoded := get_dummies (input_dict sel year month day week)
    let aligned := reindex X_columns input_encoded
    let input_scaled := sc (aligned.map fun p => p.2)
    let predicted_price := loaded_model input_scaled
    (.predicted predicted_price, 1, 1)
  else
    (.errorHalt "Invalid date entered!", 0, 0)

/-! ## Dataset, option catalogs and trend renderer (lines 84–228) -/

/-- One row of `Export.csv` after loading: the categorical columns may hold
a missing value (`none` models NaN); `date` is the result of
`pd.to_datetime(..., errors='coerce')`, a day ordinal with `⊤` modelling
NaT (which `sort_values` places last); `price` is numeric. -/
structure Row where
  admin1 : Option String
  admin2 : Option String
  market : Option String
  category : Option String
  commodity : Option String
  unit : Option String
  priceflag : Option String
  pricetype : Option String
  price : Int
  date : WithTop Int
  deriving DecidableEq

/-- Models `sorted(food[col].dropna().unique())`: drop missing values, keep
distinct ones, sort ascending. -/
def optionCatalog (col : List (Option String)) : List String :=
  List.insertionSort (· ≤ ·) (col.filterMap id).dedup

/-- Line 111: `region_options = sorted(food['admin1'].dropna().unique())`. -/
def region_options (food : List Row) : List String :=
  optionCatalog (food.map Row.admin1)

/-- Line 112, for `admin2`. -/
def district_options (food : List Row) : List String :=
  optionCatalog (food.map Row.admin2)

/-- Line 113, for `market`. -/
def market_options (food : List Row) : List String :=
  optionCatalog (food.map Row.market)

/-- Line 114, for `category`. -/
def category_options (food : List Row) : List String :=
  optionCatalog (food.map Row.category)

/-- Line 115, for `commodity`. -/
def commodity_options (food : List Row) : List String :=
  optionCatalog (food.map Row.commodity)

/-- Line 116, for `unit`. -/
def unit_options (food : List Row) : List String :=
  optionCatalog (food.map Row.unit)

/-- Line 117, for `priceflag`. -/
def priceflag_options (food : List Row) : List String :=
  optionCatalog (food.map Row.priceflag)

/-- Line 118, for `pricetype`. -/
def pricetype_options (food : List Row) : List String :=
  optionCatalog (food.map Row.pricetype)

/-- The boolean mask at lines 199–203: a row matches when its commodity,
admin1 and market cells equal the selected strings (a missing cell equals
nothing, as in pandas). -/
def matches_filter (commodity region market : String) (r : Row) : Bool :=
  r.commodity == some commodity && r.admin1 == some region && r.market == some market

/-- Row comparison used by `history.sort_values('date')`: ascending date,
NaT (`⊤`) last. -/
def dateLe (a b : Row) : Prop := a.date ≤ b.date

instance : DecidableRel dateLe := fun a b => inferInstanceAs (Decidable (a.date ≤ b.date))

instance : IsTotal Row dateLe := ⟨fun a b => le_total a.date b.date⟩

instance : IsTrans Row dateLe := ⟨fun _ _ _ hab hbc => le_trans hab hbc⟩

/-- Strict version of `dateLe`, for identifying sorted outputs. -/
def dateLt (a b : Row) : Prop := a.date < b.date

instance : IsAntisymm Row dateLt := ⟨fun _ _ hab hba => absurd hba (lt_asymm hab)⟩

/-- Models `history_sorted = history.sort_values('date')` (line 205) applied to
the filtered history (lines 199–203): the matching rows in ascending date
order (modelled extensionally by insertion sort, which produces the same
list as any stable ascending sort). -/
def history_sorted (food : List Row) (commodity region market : String) : List Row :=
  List.insertionSort dateLe (food.filter (matches_filter commodity region market))

/-- What the trend section displays: either the line chart (the
time-ordered (date, price) series plus the horizontal reference line at the
predicted price) or the "No historical data available for selected
filters." warning. -/
inductive TrendOutput where
  | chart (series : List (WithTop Int × Int)) (refLine : Int)
  | warnNoData
  deriving DecidableEq

/-- The historical-trend section (lines 199–228): filter the dataset by the
selected commodity, region and market; if any row matches, plot the
date-sorted series with the reference line, otherwise warn. -/
def renderTrend (food : List Row) (commodity region market : String)
    (predicted_price : Int) : TrendOutput :=
  let history := food.filter (matches_filter commodity region market)
  if !history.isEmpty then
    .chart ((List.insertionSort dateLe history).map fun r => (r.date, r.price))
      predicted_price
  else
    .warnNoData

/-- The trend section leaves the loaded dataset untouched: `history` is a
copy (`.copy()`, line 203), `sort_values` returns a new frame (line 205),
and `food` is never reassigned, so the environment after the section still
holds the dataset loaded at startup. -/
def renderTrendRun (food : List Row) (commodity region market : String)
    (predicted_price : Int) : TrendOutput × List Row :=
  (renderTrend food commodity region market predicted_price, food)

/-! ## Helper lemmas -/

/-- No month has more than 31 days. -/
theorem days_in_month_le (year month : Nat) : _days_in_month year month ≤ 31 := by
  unfold _days_in_month
  split
  · omega
  · by_cases hm : month < 13
    · interval_cases month <;> simp [_DAYS_IN_MONTH]
    · rw [List.getD_eq_default]
      · omega
      · simp only [_DAYS_IN_MONTH, List.length]
        omega

/-- Looking a key up in a list tabulating a function over distinct-or-not
keys returns the function's value at the first occurrence. -/
theorem lookup_map_pair (f : String → Val) (X : List String) (k : String)
    (hk : k ∈ X) : (X.map fun c => (c, f c)).lookup k = some (f k) := by
  induction X with
  | nil => cases hk
  | cons c X ih =>
    rcases hbe : (k == c) with _ | _
    · have hkX : k ∈ X := by
        rcases List.mem_cons.mp hk with h | h
        · subst h; simp at hbe
        · exact h
      simpa [List.lookup, hbe] using ih hkX
    · have : k = c := by simpa using hbe
      subst this
      simp [List.lookup]

/-- The `reindex` result looks schema columns up in the encoded row, defaulting to 0. -/
theorem lookup_reindex (X_columns : List String) (row : List (String × Val))
    (k : String) (hk : k ∈ X_columns) :
    (reindex X_columns row).lookup k = some ((row.lookup k).getD (Val.num 0)) :=
  lookup_map_pair _ X_columns k hk

/-- C10: the date widgets bound every submission to year ∈ [2000, 2050],
month ∈ [1, 12] and day ∈ [1, 31]; within those bounds the `datetime`
construction fails exactly when the day exceeds the length of the selected
month, so month- or year-out-of-range failures are unreachable. -/
theorem widget_bounds_only_day_overflow (year month day : Nat)
    (hy1 : 2000 ≤ year) (hy2 : year ≤ 2050) (hm1 : 1 ≤ month) (hm2 : month ≤ 12)
    (hd1 : 1 ≤ day) (hd2 : day ≤ 31) :
    check_date_fields year month day = false ↔ _days_in_month year month < day := by
  have hiff : check_date_fields year month day = true ↔
      (1 ≤ year ∧ year ≤ 9999 ∧ 1 ≤ month ∧ month ≤ 12 ∧ 1 ≤ day ∧
        day ≤ _days_in_month year month) := by
    simp [check_date_fields, Bool.and_eq_true, decide_eq_true_eq, and_assoc]
  constructor
  · intro hf
    rcases Nat.lt_or_ge (_days_in_month year month) day with h | h
    · exact h
    · have ht : check_date_fields year month day = true :=
        hiff.mpr ⟨by omega, by omega, hm1, hm2, hd1, h⟩
      rw [hf] at ht
      exact Bool.noConfusion ht
  · intro hlt
    cases hcdf : check_date_fields year month day with
    | false => rfl
    | true =>
      have h6 := hiff.mp hcdf
      omega

/-- C10 witness: at (2024, 2, 30) the bounds hold and the equivalence
applies (February 2024 has 29 days). -/
theorem widget_bounds_only_day_overflow_witness :
    (2000 ≤ 2024 ∧ 2024 ≤ 2050 ∧ 1 ≤ 2 ∧ 2 ≤ 12 ∧ 1 ≤ 30 ∧ 30 ≤ 31) ∧
    (check_date_fields 2024 2 30 = false ↔ _days_in_month 2024 2 < 30) :=
  ⟨by decide,
    widget_bounds_only_day_overflow 2024 2 30 (by decide) (by decide) (by decide)
      (by decide) (by decide) (by decide)⟩

/-- C2: whenever the submitted (year, month, day) triple is not a real
calendar date, the handler reports "Invalid date entered!" and halts, and
neither the scaler's transform nor the model's predict is invoked (both
call counters are 0), for every scaler, model, schema and selection. -/
theorem invalid_date_halts_without_predicting
    (sc : List Val → List Val) (loaded_model : List Val → Int)
    (X_columns : List String) (sel : Selection) (year month day : Nat)
    (h : check_date_fields year month day = false) :
    runPredict sc loaded_model X_columns sel year month day =
      (.errorHalt "Invalid date entered!", 0, 0) := by
  simp [runPredict, h]

/-- C2 witness: (2024, 2, 30) is rejected and triggers no transform or
predict call. -/
theorem invalid_date_halts_without_predicting_witness :
    check_date_fields 2024 2 30 = false ∧
    runPredict id (fun _ => 0) [] ⟨"a", "b", "c", "d", "e", "f", "g", "h"⟩ 2024 2 30 =
      (.errorHalt "Invalid date entered!", 0, 0) :=
  ⟨by decide,
    invalid_date_halts_without_predicting id (fun _ => 0) []
      ⟨"a", "b", "c", "d", "e", "f", "g", "h"⟩ 2024 2 30 (by decide)⟩

/-- C1 counterexample: the loader does not search subdirectory candidates.
For every nonempty list of known subdirectories there is a filesystem on
which the app's single-path load disagrees with the candidate-search
contract: place the artifact under the first subdirectory only; the search
contract finds it there, while the app's loader signals the fatal error. -/
theorem loadArtifact_no_subdirectory_search :
    ¬ ∃ subdirs : List String, subdirs ≠ [] ∧
      ∀ (fs : List (String × Nat)),
        ∀ name ∈ ["finalized_model.sav", "scaler.sav", "model_columns.pkl"],
          loadArtifact fs name = searchLoad fs name subdirs := by
  rintro ⟨subdirs, hne, h⟩
  match subdirs, hne with
  | d :: ds, _ =>
    have hx := h [(d ++ "/" ++ "finalized_model.sav", 7)] "finalized_model.sav" (by simp)
    have hlen : ((d ++ "/" ++ "finalized_model.sav") == "finalized_model.sav") = false := by
      rw [beq_eq_false_iff_ne]
      intro he
      have hle := congrArg String.length he
      simp [String.length_append] at hle
      exact absurd hle.2 (by decide)
    have hl : loadArtifact [(d ++ "/" ++ "finalized_model.sav", 7)] "finalized_model.sav"
        = none := by
      simp [loadArtifact, readFile, List.find?, hlen]
    have hr : searchLoad [(d ++ "/" ++ "finalized_model.sav", 7)] "finalized_model.sav"
        (d :: ds) = some 7 := by
      simp [searchLoad, candidatePaths, List.findSome?, readFile, List.find?, hlen]
    rw [hl, hr] at hx
    exact Option.noConfusion hx

/-- C1 amended: each artifact is loaded from exactly one candidate path,
its bare logical filename; the loader returns the three deserialized
objects iff all three bare paths exist, and signals the fatal error
(halting) iff at least one bare path is missing.  No subdirectory is
searched. -/
theorem loadModelFiles_spec (fs : List (String × Nat)) :
    (∀ m s c, loadModelFiles fs = .ok (m, s, c) ↔
      (readFile fs "finalized_model.sav" = some m ∧
       readFile fs "scaler.sav" = some s ∧
       readFile fs "model_columns.pkl" = some c)) ∧
    ((∃ e, loadModelFiles fs = .error e) ↔
      (readFile fs "finalized_model.sav" = none ∨
       readFile fs "scaler.sav" = none ∨
       readFile fs "model_columns.pkl" = none)) := by
  unfold loadModelFiles loadArtifact
  rcases h1 : readFile fs "finalized_model.sav" with _ | m1 <;>
    rcases h2 : readFile fs "scaler.sav" with _ | s1 <;>
      rcases h3 : readFile fs "model_columns.pkl" with _ | c1 <;>
        simp

/-- C1 witness: on a filesystem holding exactly the three bare names, the
loader returns the three payloads. -/
theorem loadModelFiles_spec_witness :
    loadModelFiles
      [("finalized_model.sav", 1), ("scaler.sav", 2), ("model_columns.pkl", 3)] =
      .ok (1, 2, 3) :=
  ((loadModelFiles_spec
      [("finalized_model.sav", 1), ("scaler.sav", 2), ("model_columns.pkl", 3)]).1
    1 2 3).mpr ⟨by decide, by decide, by decide⟩

/-- C3: reindexing against the training schema yields a row whose column
list is exactly the schema in order; schema columns present in the encoded
row keep their (first) value, absent schema columns are filled with
numeric 0, and encoded columns outside the schema do not survive. -/
theorem reindex_matches_schema (X_columns : List String) (row : List (String × Val)) :
    ((reindex X_columns row).map Prod.fst = X_columns) ∧
    (∀ c v, c ∈ X_columns → row.lookup c = some v → (c, v) ∈ reindex X_columns row) ∧
    (∀ c, c ∈ X_columns → row.lookup c = none →
      (c, Val.num 0) ∈ reindex X_columns row) ∧
    (∀ p ∈ reindex X_columns row, p.1 ∈ X_columns) := by
  refine ⟨?_, ?_, ?_, ?_⟩
  · simp [reindex, Function.comp_def]
  · intro c v hc hl
    simp only [reindex, List.mem_map]
    exact ⟨c, hc, by simp [hl]⟩
  · intro c hc hl
    simp only [reindex, List.mem_map]
    exact ⟨c, hc, by simp [hl]⟩
  · intro p hp
    simp only [reindex, List.mem_map] at hp
    obtain ⟨c, hc, he⟩ := hp
    rw [← he]
    exact hc

/-- C3 witness: schema `[feat_a, feat_b]` with an encoded row producing
only `feat_a` yields `[(feat_a, value), (feat_b, 0)]` in schema order. -/
theorem reindex_matches_schema_witness :
    reindex ["feat_a", "feat_b"] [("feat_a", Val.num 5)] =
      [("feat_a", Val.num 5), ("feat_b", Val.num 0)] ∧
    ("feat_b", Val.num 0) ∈ reindex ["feat_a", "feat_b"] [("feat_a", Val.num 5)] :=
  ⟨by decide,
    (reindex_matches_schema ["feat_a", "feat_b"] [("feat_a", Val.num 5)]).2.2.1
      "feat_b" (by decide) (by decide)⟩

/-- C9: one-hot encoding leaves the numeric fields year, month, day and
week untouched (only the string-valued fields are expanded into indicator
columns), so the encoded row — and, whenever those columns are in the
training schema, the reindexed row — carries the submitted values verbatim. -/
theorem numeric_fields_pass_through (sel : Selection) (year month day week : Nat)
    (X_columns : List String) :
    ((get_dummies (input_dict sel year month day week)).lookup "year" =
        some (.num year) ∧
      (get_dummies (input_dict sel year month day week)).lookup "month" =
        some (.num month) ∧
      (get_dummies (input_dict sel year month day week)).lookup "day" =
        some (.num day) ∧
      (get_dummies (input_dict sel year month day week)).lookup "week" =
        some (.num week)) ∧
    ("year" ∈ X_columns →
      (reindex X_columns (get_dummies (input_dict sel year month day week))).lookup
        "year" = some (.num year)) ∧
    ("month" ∈ X_columns →
      (reindex X_columns (get_dummies (input_dict sel year month day week))).lookup
        "month" = some (.num month)) ∧
    ("day" ∈ X_columns →
      (reindex X_columns (get_dummies (input_dict sel year month day week))).lookup
        "day" = some (.num day)) ∧
    ("week" ∈ X_columns →
      (reindex X_columns (get_dummies (input_dict sel year month day week))).lookup
        "week" = some (.num week)) := by
  refine ⟨⟨rfl, rfl, rfl, rfl⟩, ?_, ?_, ?_, ?_⟩ <;>
    intro hmem <;> rw [lookup_reindex _ _ _ hmem] <;> rfl

/-- C9 witness: a concrete submission with schema
`[year, month, day, week]`. -/
theorem numeric_fields_pass_through_witness :
    ("week" ∈ ["year", "month", "day", "week"]) ∧
    (reindex ["year", "month", "day", "week"]
        (get_dummies (input_dict ⟨"a", "b", "c", "d", "e", "f", "g", "h"⟩
          2024 1 1 1))).lookup "week" = some (.num 1) :=
  ⟨by decide,
    (numeric_fields_pass_through ⟨"a", "b", "c", "d", "e", "f", "g", "h"⟩
      2024 1 1 1 ["year", "month", "day", "week"]).2.2.2.2 (by decide)⟩

set_option maxRecDepth 100000 in
set_option maxHeartbeats 4000000 in
/-- The CPython week computation agrees with the spec-side Thursday rule on
every widget-reachable valid date, checked exhaustively. -/
theorem isoWeekCheck_true : isoWeekCheck = true := by decide

/-- Pointwise form of `isoWeekCheck_true`: on every valid date with a
widget-reachable year, the week CPython computes is the ISO week by the
Thursday rule. -/
theorem isocalendar_week_eq_spec (year month day : Nat)
    (hy1 : 2000 ≤ year) (hy2 : year ≤ 2050)
    (hv : check_date_fields year month day = true) :
    isocalendar_week year month day = isoWeekSpec year month day := by
  have hb : (1 ≤ year ∧ year ≤ 9999) ∧ (1 ≤ month ∧ month ≤ 12) ∧
      1 ≤ day ∧ day ≤ _days_in_month year month := by
    simpa [check_date_fields, Bool.and_eq_true, decide_eq_true_eq, and_assoc]
      using hv
  have hd31 : day ≤ 31 := le_trans hb.2.2.2 (days_in_month_le year month)
  have h := isoWeekCheck_true
  simp only [isoWeekCheck, List.all_eq_true, List.mem_range] at h
  have h2 := h (year - 2000) (by omega) (month - 1) (by omega) (day - 1) (by omega)
  have e1 : 2000 + (year - 2000) = year := by omega
  have e2 : month - 1 + 1 = month := by omega
  have e3 : day - 1 + 1 = day := by omega
  rw [e1, e2, e3] at h2
  simpa [hv] using h2

/-- C4: in the feature row built for a valid widget-reachable submission,
the derived week value is exactly the ISO calendar week of that date (ISO
week given independently by the Thursday rule, `isoWeekSpec`). -/
theorem feature_week_is_iso_week (sel : Selection) (year month day : Nat)
    (hy1 : 2000 ≤ year) (hy2 : year ≤ 2050)
    (hv : check_date_fields year month day = true) :
    (input_dict sel year month day (isocalendar_week year month day)).lookup "week"
      = some (.num (isoWeekSpec year month day)) := by
  rw [isocalendar_week_eq_spec year month day hy1 hy2 hv]
  rfl

/-- C4 witness: 2024-01-01 is valid and in range; its ISO week is 1
(matching the claim's example), and 2024-12-31 falls in week 1 of the next
ISO year. -/
theorem feature_week_is_iso_week_witness :
    (2000 ≤ 2024 ∧ 2024 ≤ 2050 ∧ check_date_fields 2024 1 1 = true) ∧
    (input_dict ⟨"a", "b", "c", "d", "e", "f", "g", "h"⟩ 2024 1 1
        (isocalendar_week 2024 1 1)).lookup "week" =
      some (.num (isoWeekSpec 2024 1 1)) ∧
    isoWeekSpec 2024 1 1 = 1 ∧
    isocalendar_week 2024 12 31 = 1 :=
  ⟨⟨by decide, by decide, by decide⟩,
    feature_week_is_iso_week ⟨"a", "b", "c", "d", "e", "f", "g", "h"⟩ 2024 1 1
      (by decide) (by decide) (by decide),
    by decide, by decide⟩

/-- The option catalog of any column is strictly ascending (hence
duplicate-free) and holds exactly the column's non-missing values. -/
theorem optionCatalog_spec (col : List (Option String)) :
    (optionCatalog col).Sorted (· < ·) ∧
    ∀ x : String, x ∈ optionCatalog col ↔ some x ∈ col := by
  have hperm := List.perm_insertionSort (α := String) (· ≤ ·) (col.filterMap id).dedup
  constructor
  · have hs : (optionCatalog col).Sorted (· ≤ ·) :=
      List.sorted_insertionSort (· ≤ ·) (col.filterMap id).dedup
    have hnd : (optionCatalog col).Nodup :=
      hperm.nodup_iff.mpr (List.nodup_dedup _)
    exact hs.lt_of_le hnd
  · intro x
    rw [show (x ∈ optionCatalog col ↔ x ∈ (col.filterMap id).dedup) from hperm.mem_iff,
      List.mem_dedup, List.mem_filterMap]
    simp

/-- C5: each of the eight per-column option catalogs is a strictly
ascending, duplicate-free sequence holding exactly the distinct
non-missing values of its dataset column, and each is computed by a pure
function of the loaded dataset. -/
theorem option_catalogs_sorted_distinct (food : List Row) :
    ((region_options food).Sorted (· < ·) ∧
      ∀ x, x ∈ region_options food ↔ some x ∈ food.map Row.admin1) ∧
    ((district_options food).Sorted (· < ·) ∧
      ∀ x, x ∈ district_options food ↔ some x ∈ food.map Row.admin2) ∧
    ((market_options food).Sorted (· < ·) ∧
      ∀ x, x ∈ market_options food ↔ some x ∈ food.map Row.market) ∧
    ((category_options food).Sorted (· < ·) ∧
      ∀ x, x ∈ category_options food ↔ some x ∈ food.map Row.category) ∧
    ((commodity_options food).Sorted (· < ·) ∧
      ∀ x, x ∈ commodity_options food ↔ some x ∈ food.map Row.commodity) ∧
    ((unit_options food).Sorted (· < ·) ∧
      ∀ x, x ∈ unit_options food ↔ some x ∈ food.map Row.unit) ∧
    ((priceflag_options food).Sorted (· < ·) ∧
      ∀ x, x ∈ priceflag_options food ↔ some x ∈ food.map Row.priceflag) ∧
    ((pricetype_options food).Sorted (· < ·) ∧
      ∀ x, x ∈ pricetype_options food ↔ some x ∈ food.map Row.pricetype) :=
  ⟨optionCatalog_spec _, optionCatalog_spec _, optionCatalog_spec _,
    optionCatalog_spec _, optionCatalog_spec _, optionCatalog_spec _,
    optionCatalog_spec _, optionCatalog_spec _⟩

/-- C5 witness: a two-row dataset whose regions arrive out of order; the
catalog characterization applies, and indeed the region catalog is the
ascending duplicate-free ["Arusha", "Dodoma"]. -/
theorem option_catalogs_sorted_distinct_witness :
    ((region_options
        [⟨some "Dodoma", some "d1", some "m1", some "c1", some "Maize",
          some "kg", some "actual", some "Retail", 1000, ((100 : Int) : WithTop Int)⟩,
         ⟨some "Arusha", some "d2", some "m2", some "c2", some "Rice",
          some "kg", some "actual", some "Retail", 1500, ((200 : Int) : WithTop Int)⟩]).Sorted
        (· < ·) ∧
      ∀ x, x ∈ region_options
        [⟨some "Dodoma", some "d1", some "m1", some "c1", some "Maize",
          some "kg", some "actual", some "Retail", 1000, ((100 : Int) : WithTop Int)⟩,
         ⟨some "Arusha", some "d2", some "m2", some "c2", some "Rice",
          some "kg", some "actual", some "Retail", 1500, ((200 : Int) : WithTop Int)⟩] ↔
        some x ∈ List.map Row.admin1
          [⟨some "Dodoma", some "d1", some "m1", some "c1", some "Maize",
            some "kg", some "actual", some "Retail", 1000, ((100 : Int) : WithTop Int)⟩,
           ⟨some "Arusha", some "d2", some "m2", some "c2", some "Rice",
            some "kg", some "actual", some "Retail", 1500, ((200 : Int) : WithTop Int)⟩]) :=
  (option_catalogs_sorted_distinct
    [⟨some "Dodoma", some "d1", some "m1", some "c1", some "Maize",
      some "kg", some "actual", some "Retail", 1000, ((100 : Int) : WithTop Int)⟩,
     ⟨some "Arusha", some "d2", some "m2", some "c2", some "Rice",
      some "kg", some "actual", some "Retail", 1500, ((200 : Int) : WithTop Int)⟩]).1

/-- C6: the trend section warns "no historical data" exactly when no
dataset row matches the selected commodity, region and market, and renders
the chart exactly when at least one row matches. -/
theorem trend_warns_iff_no_match (food : List Row)
    (commodity region market : String) (p : Int) :
    (renderTrend food commodity region market p = .warnNoData ↔
      food.filter (matches_filter commodity region market) = []) ∧
    ((∃ s, renderTrend food commodity region market p = .chart s p) ↔
      ∃ r ∈ food, matches_filter commodity region market r = true) := by
  rcases hf : food.filter (matches_filter commodity region market) with _ | ⟨r0, rest⟩
  · constructor
    · simp [renderTrend, hf]
    · simp only [renderTrend, hf]
      constructor
      · rintro ⟨s, hs⟩
        exact absurd hs (by simp)
      · rintro ⟨r, hr, hm⟩
        have : r ∈ food.filter (matches_filter commodity region market) :=
          List.mem_filter.mpr ⟨hr, hm⟩
        rw [hf] at this
        cases this
  · constructor
    · simp [renderTrend, hf]
    · simp only [renderTrend, hf]
      constructor
      · intro _
        have : r0 ∈ food.filter (matches_filter commodity region market) := by
          rw [hf]; exact List.mem_cons_self r0 rest
        exact ⟨r0, (List.mem_filter.mp this).1, (List.mem_filter.mp this).2⟩
      · intro _
        exact ⟨(List.insertionSort dateLe (r0 :: rest)).map fun r => (r.date, r.price),
          by simp⟩

/-- C6 witness: with an empty dataset nothing matches and the section
warns; the filter is empty by computation. -/
theorem trend_warns_iff_no_match_witness :
    renderTrend [] "Maize" "Dodoma" "Central" 1200 = .warnNoData :=
  (trend_warns_iff_no_match [] "Maize" "Dodoma" "Central" 1200).1.mpr rfl

/-- A date-sorted row list whose dates are distinct is strictly sorted. -/
theorem sorted_dateLt_of_sorted_nodup {l : List Row}
    (hs : l.Sorted dateLe) (hnd : (l.map Row.date).Nodup) : l.Sorted dateLt := by
  have hne : l.Pairwise fun a b => a.date ≠ b.date := List.pairwise_map.mp hnd
  exact hs.imp₂ (fun a b hle hneq => lt_of_le_of_ne hle hneq) hne

/-- When any row matches, the trend section renders the chart of the
date-sorted matching rows. -/
theorem renderTrend_eq_chart (g : List Row) (c r m : String) (p : Int)
    (hg : g.filter (matches_filter c r m) ≠ []) :
    renderTrend g c r m p =
      .chart ((history_sorted g c r m).map fun row => (row.date, row.price)) p := by
  rcases hf : g.filter (matches_filter c r m) with _ | ⟨r0, rest⟩
  · exact absurd hf hg
  · simp [renderTrend, history_sorted, hf]

/-- C7: for a dataset with at least two matching rows, all with distinct
dates, the series handed to the chart lists the matching rows in strictly
ascending date order, and any permutation of the dataset's rows renders
the identical output. -/
theorem trend_series_ascending (food food' : List Row)
    (commodity region market : String) (p : Int)
    (hperm : food.Perm food')
    (hnd : ((food.filter (matches_filter commodity region market)).map Row.date).Nodup)
    (hlen : 2 ≤ (food.filter (matches_filter commodity region market)).length) :
    ((history_sorted food commodity region market).map Row.date).Sorted (· < ·) ∧
    renderTrend food commodity region market p =
      .chart ((history_sorted food commodity region market).map fun r =>
        (r.date, r.price)) p ∧
    renderTrend food' commodity region market p =
      renderTrend food commodity region market p := by
  have hpf : (food.filter (matches_filter commodity region market)).Perm
      (food'.filter (matches_filter commodity region market)) :=
    hperm.filter _
  have hs : (history_sorted food commodity region market).Sorted dateLe :=
    List.sorted_insertionSort dateLe _
  have hps : (history_sorted food commodity region market).Perm
      (food.filter (matches_filter commodity region market)) :=
    List.perm_insertionSort dateLe _
  have hnds : ((history_sorted food commodity region market).map Row.date).Nodup :=
    ((hps.map Row.date).nodup_iff).mpr hnd
  have hstrict : (history_sorted food commodity region market).Sorted dateLt :=
    sorted_dateLt_of_sorted_nodup hs hnds
  have hne : food.filter (matches_filter commodity region market) ≠ [] := by
    intro h0
    rw [h0] at hlen
    simp at hlen
  have hne' : food'.filter (matches_filter commodity region market) ≠ [] := by
    intro h0
    have hl := hpf.length_eq
    rw [h0] at hl
    simp only [List.length_nil] at hl
    omega
  refine ⟨List.pairwise_map.mpr hstrict, renderTrend_eq_chart _ _ _ _ _ hne, ?_⟩
  have hs' : (history_sorted food' commodity region market).Sorted dateLe :=
    List.sorted_insertionSort dateLe _
  have hps' : (history_sorted food' commodity region market).Perm
      (food'.filter (matches_filter commodity region market)) :=
    List.perm_insertionSort dateLe _
  have hpp : (history_sorted food' commodity region market).Perm
      (history_sorted food commodity region market) :=
    hps'.trans (hpf.symm.trans hps.symm)
  have hnds' : ((history_sorted food' commodity region market).map Row.date).Nodup :=
    ((hpp.map Row.date).nodup_iff).mpr hnds
  have hstrict' := sorted_dateLt_of_sorted_nodup hs' hnds'
  have heq : history_sorted food' commodity region market =
      history_sorted food commodity region market :=
    List.eq_of_perm_of_sorted hpp hstrict' hstrict
  rw [renderTrend_eq_chart _ _ _ _ _ hne', renderTrend_eq_chart _ _ _ _ _ hne, heq]

/-- C7 witness: two matching rows with distinct dates, presented in the
two possible orders. -/
theorem trend_series_ascending_witness :
    (((([⟨some "Dodoma", some "d", some "Central", some "c", some "Maize",
          some "kg", some "actual", some "Retail", 1000,
          ((200 : Int) : WithTop Int)⟩,
        ⟨some "Dodoma", some "d", some "Central", some "c", some "Maize",
          some "kg", some "actual", some "Retail", 1100,
          ((100 : Int) : WithTop Int)⟩] : List Row).filter
        (matches_filter "Maize" "Dodoma" "Central")).map Row.date).Nodup ∧
      2 ≤ (([⟨some "Dodoma", some "d", some "Central", some "c", some "Maize",
          some "kg", some "actual", some "Retail", 1000,
          ((200 : Int) : WithTop Int)⟩,
        ⟨some "Dodoma", some "d", some "Central", some "c", some "Maize",
          some "kg", some "actual", some "Retail", 1100,
          ((100 : Int) : WithTop Int)⟩] : List Row).filter
        (matches_filter "Maize" "Dodoma" "Central")).length) ∧
    ((history_sorted
        [⟨some "Dodoma", some "d", some "Central", some "c", some "Maize",
          some "kg", some "actual", some "Retail", 1000,
          ((200 : Int) : WithTop Int)⟩,
         ⟨some "Dodoma", some "d", some "Central", some "c", some "Maize",
          some "kg", some "actual", some "Retail", 1100,
          ((100 : Int) : WithTop Int)⟩] "Maize" "Dodoma" "Central").map
        Row.date).Sorted (· < ·) ∧
    renderTrend
        [⟨some "Dodoma", some "d", some "Central", some "c", some "Maize",
          some "kg", some "actual", some "Retail", 1000,
          ((200 : Int) : WithTop Int)⟩,
         ⟨some "Dodoma", some "d", some "Central", some "c", some "Maize",
          some "kg", some "actual", some "Retail", 1100,
          ((100 : Int) : WithTop Int)⟩] "Maize" "Dodoma" "Central" 1200 =
      .chart ((history_sorted
        [⟨some "Dodoma", some "d", some "Central", some "c", some "Maize",
          some "kg", some "actual", some "Retail", 1000,
          ((200 : Int) : WithTop Int)⟩,
         ⟨some "Dodoma", some "d", some "Central", some "c", some "Maize",
          some "kg", some "actual", some "Retail", 1100,
          ((100 : Int) : WithTop Int)⟩] "Maize" "Dodoma" "Central").map fun r =>
            (r.date, r.price)) 1200 ∧
    renderTrend
        [⟨some "Dodoma", some "d", some "Central", some "c", some "Maize",
          some "kg", some "actual", some "Retail", 1100,
          ((100 : Int) : WithTop Int)⟩,
         ⟨some "Dodoma", some "d", some "Central", some "c", some "Maize",
          some "kg", some "actual", some "Retail", 1000,
          ((200 : Int) : WithTop Int)⟩] "Maize" "Dodoma" "Central" 1200 =
      renderTrend
        [⟨some "Dodoma", some "d", some "Central", some "c", some "Maize",
          some "kg", some "actual", some "Retail", 1000,
          ((200 : Int) : WithTop Int)⟩,
         ⟨some "Dodoma", some "d", some "Central", some "c", some "Maize",
          some "kg", some "actual", some "Retail", 1100,
          ((100 : Int) : WithTop Int)⟩] "Maize" "Dodoma" "Central" 1200 := by
  refine ⟨⟨by decide, by decide⟩, ?_⟩
  exact trend_series_ascending _ _ "Maize" "Dodoma" "Central" 1200
    (List.Perm.swap _ _ _) (by decide) (by decide)

/-- C8: the trend section never mutates the loaded dataset: it only reads
a filtered copy, its non-inplace sort and the plotting leave the dataset
binding exactly as at load time, and re-running the section on the
retained dataset reproduces the same output. -/
theorem trend_renderer_no_mutation (food : List Row)
    (commodity region market : String) (p : Int) :
    (renderTrendRun food commodity region market p).2 = food ∧
    (renderTrendRun food commodity region market p).1 =
      renderTrend food commodity region market p ∧
    renderTrendRun ((renderTrendRun food commodity region market p).2)
        commodity region market p =
      renderTrendRun food commodity region market p :=
  ⟨rfl, rfl, rfl⟩

end FoodApp
